import Mathlib

/-!
Verification of the DiscourseMatrix relay (`src/app.py`), a single Flask
handler `proxy` that forwards Matrix client-API requests to a fixed
upstream.  The embedding models:

* header lists as ordered multi-maps `List (String × String)`;
* Python `str.lower()` and `str.title()` on ASCII (Lean's `Char.toLower`
  and `Char.toUpper` are exactly the ASCII case maps, which is what HTTP
  header names use);
* Werkzeug's WSGI header handling: the environ is a dict keyed by the
  upper-cased header name, so repeated client header names are
  comma-joined into a single entry (`serving.py`, `make_environ`), and
  `request.headers` presents each entry under its title-cased name
  (`str.title()` of the hyphenated name);
* Python `dict(pairs)` (first-occurrence key order, last value wins) and
  `dict.pop(key, None)` (exact-key removal);
* `bytes.decode("utf-8", errors=...)` as an executable UTF-8 decoder
  parametrized by the error mode (`strict` raises, `ignore` drops the
  offending bytes);
* the handler itself as a pure function of the inbound request and of the
  upstream's answer (a transport error or a response), returning the log
  lines it prints, the outbound request it issues, and either the
  propagated transport error (the code has no try/except) or the relayed
  response.
-/

/-! ## Python string primitives -/

/-- Model of Python `str.lower()` on ASCII text: lower-case every character.
`Char.toLower` is the ASCII case map, which agrees with Python on the
ASCII header names HTTP uses. -/
def pyLower (s : String) : String :=
  ⟨s.data.map Char.toLower⟩

/-- Character-by-character worker for Python `str.title()`: a letter is
upper-cased when the previous character was not a letter, lower-cased
otherwise.  The `Bool` argument records whether the previous character
was a letter. -/
def pyTitleAux : Bool → List Char → List Char
  | _, [] => []
  | prevAlpha, c :: cs =>
    (if c.isAlpha then (if prevAlpha then c.toLower else c.toUpper) else c)
      :: pyTitleAux c.isAlpha cs

/-- Model of Python `str.title()` on ASCII text. -/
def pyTitle (s : String) : String :=
  ⟨pyTitleAux false s.data⟩

/-- Werkzeug presents WSGI environ header names (`HTTP_X_FOO`) to the
application title-cased with hyphens (`X-Foo`); for a client-spelled
name without underscores this is exactly `str.title()` of the name.
`dict(request.headers)` in `app.py` therefore sees these normalized
names as its keys. -/
def normalizeHeaderName (s : String) : String :=
  pyTitle s

/-! ## Python dict on (header, value) pairs -/

/-- Ordered multi-map of header names to values, the spec's header
representation. -/
abbrev HeaderList := List (String × String)

/-- One step of building a Python `dict` from key/value pairs: if the key
is present its value is replaced in place, otherwise the pair is appended.
Python dicts keep first-occurrence key order and the last value. -/
def dictInsert (d : HeaderList) (k v : String) : HeaderList :=
  if d.any (fun p => p.1 = k) then
    d.map (fun p => if p.1 = k then (k, v) else p)
  else
    d ++ [(k, v)]

/-- Python `dict(pairs)`: fold the pairs into an initially empty dict. -/
def dictOfList (l : HeaderList) : HeaderList :=
  l.foldl (fun d p => dictInsert d p.1 p.2) []

/-- Python `dict.pop(key, None)`: remove the entry whose key equals `k`
exactly (dict keys are compared case-sensitively). -/
def dictPop (d : HeaderList) (k : String) : HeaderList :=
  d.filter (fun p => p.1 ≠ k)

/-- The keys of a header list, in order. -/
def headerKeys (d : HeaderList) : List String :=
  d.map Prod.fst

/-! ## ASCII case-map facts -/

theorem mem_dictInsert {p : String × String} {d : HeaderList} {k v : String}
    (h : p ∈ dictInsert d k v) : p = (k, v) ∨ p ∈ d := by
  unfold dictInsert at h
  split at h
  · rw [List.mem_map] at h
    obtain ⟨q, hq, hpq⟩ := h
    by_cases hk : q.1 = k
    · left
      rw [← hpq, if_pos hk]
    · right
      rw [← hpq, if_neg hk]
      exact hq
  · rw [List.mem_append] at h
    rcases h with h | h
    · exact Or.inr h
    · left
      simpa using h

theorem mem_headerKeys {d : HeaderList} {k : String} :
    k ∈ headerKeys d ↔ ∃ v, (k, v) ∈ d := by
  unfold headerKeys
  constructor
  · intro h
    rw [List.mem_map] at h
    obtain ⟨p, hp, hk⟩ := h
    exact ⟨p.2, by rw [← hk]; exact hp⟩
  · rintro ⟨v, hv⟩
    exact List.mem_map.mpr ⟨(k, v), hv, rfl⟩

theorem headerKeys_dictInsert_of_present {d : HeaderList} {k v : String}
    (h : d.any (fun p => p.1 = k) = true) :
    headerKeys (dictInsert d k v) = headerKeys d := by
  unfold dictInsert
  rw [if_pos h]
  unfold headerKeys
  rw [List.map_map]
  apply List.map_congr_left
  intro p _
  by_cases hk : p.1 = k
  · simp [hk]
  · simp [hk]

theorem key_mem_dictInsert_self (d : HeaderList) (k v : String) :
    k ∈ headerKeys (dictInsert d k v) := by
  by_cases h : d.any (fun p => p.1 = k) = true
  · rw [headerKeys_dictInsert_of_present h]
    rw [List.any_eq_true] at h
    obtain ⟨p, hp, hk⟩ := h
    rw [mem_headerKeys]
    exact ⟨p.2, by rw [decide_eq_true_eq] at hk; rw [← hk]; exact hp⟩
  · unfold dictInsert
    rw [if_neg h]
    rw [mem_headerKeys]
    exact ⟨v, List.mem_append.mpr (Or.inr (by simp))⟩

theorem key_mem_dictInsert_of_mem {d : HeaderList} {k v k' : String}
    (h : k' ∈ headerKeys d) : k' ∈ headerKeys (dictInsert d k v) := by
  by_cases hp : d.any (fun p => p.1 = k) = true
  · rw [headerKeys_dictInsert_of_present hp]
    exact h
  · unfold dictInsert
    rw [if_neg hp]
    unfold headerKeys at h ⊢
    rw [List.map_append, List.mem_append]
    exact Or.inl h

theorem nodup_headerKeys_dictInsert {d : HeaderList} {k v : String}
    (h : (headerKeys d).Nodup) : (headerKeys (dictInsert d k v)).Nodup := by
  by_cases hp : d.any (fun p => p.1 = k) = true
  · rw [headerKeys_dictInsert_of_present hp]
    exact h
  · unfold dictInsert
    rw [if_neg hp]
    unfold headerKeys
    rw [List.map_append, List.nodup_append]
    refine ⟨h, by simp, ?_⟩
    intro k' hk' hk2
    simp only [List.map_cons, List.map_nil, List.mem_singleton] at hk2
    rw [List.any_eq_true] at hp
    apply hp
    rw [List.mem_map] at hk'
    obtain ⟨p, hmem, hfst⟩ := hk'
    exact ⟨p, hmem, by rw [decide_eq_true_eq, hfst, hk2]⟩

theorem mem_foldl_dictInsert :
    ∀ (l d : HeaderList) (p : String × String),
      p ∈ l.foldl (fun d q => dictInsert d q.1 q.2) d → p ∈ d ∨ p ∈ l := by
  intro l
  induction l with
  | nil =>
    intro d p h
    exact Or.inl h
  | cons q l ih =>
    intro d p h
    rw [List.foldl_cons] at h
    rcases ih _ p h with h' | h'
    · rcases mem_dictInsert h' with h'' | h''
      · right
        rw [List.mem_cons]
        left
        rw [h'']
      · exact Or.inl h''
    · right
      rw [List.mem_cons]
      exact Or.inr h'

theorem mem_dictOfList {l : HeaderList} {p : String × String}
    (h : p ∈ dictOfList l) : p ∈ l := by
  rcases mem_foldl_dictInsert l [] p h with h' | h'
  · simp at h'
  · exact h'

theorem key_mem_foldl_dictInsert :
    ∀ (l d : HeaderList) (k : String),
      k ∈ headerKeys d ∨ k ∈ headerKeys l →
      k ∈ headerKeys (l.foldl (fun d q => dictInsert d q.1 q.2) d) := by
  intro l
  induction l with
  | nil =>
    intro d k h
    rcases h with h | h
    · exact h
    · simp [headerKeys] at h
  | cons q l ih =>
    intro d k h
    rw [List.foldl_cons]
    apply ih
    rcases h with h | h
    · exact Or.inl (key_mem_dictInsert_of_mem h)
    · unfold headerKeys at h
      rw [List.map_cons, List.mem_cons] at h
      rcases h with h | h
      · left
        rw [h]
        exact key_mem_dictInsert_self d q.1 q.2
      · exact Or.inr h

theorem key_mem_dictOfList {l : HeaderList} {k : String}
    (h : k ∈ headerKeys l) : k ∈ headerKeys (dictOfList l) :=
  key_mem_foldl_dictInsert l [] k (Or.inr h)

theorem nodup_headerKeys_foldl :
    ∀ (l d : HeaderList), (headerKeys d).Nodup →
      (headerKeys (l.foldl (fun d q => dictInsert d q.1 q.2) d)).Nodup := by
  intro l
  induction l with
  | nil =>
    intro d h
    exact h
  | cons q l ih =>
    intro d h
    rw [List.foldl_cons]
    exact ih _ (nodup_headerKeys_dictInsert h)

theorem nodup_headerKeys_dictOfList (l : HeaderList) :
    (headerKeys (dictOfList l)).Nodup :=
  nodup_headerKeys_foldl l [] (by simp [headerKeys])

/-- A byte of a Python `bytes` object, i.e. a `Nat` in `[0, 255]`. -/
abbrev Byte := Nat

/-- Error mode of Python `bytes.decode`: `strict` raises
`UnicodeDecodeError`, `ignore` drops the malformed bytes, `replace`
substitutes U+FFFD for them. -/
inductive ErrMode
  | strict
  | ignore
  | replace
deriving DecidableEq

/-- Python `UnicodeDecodeError`, raised by strict-mode decoding. -/
inductive UnicodeDecodeError
  | mk
deriving DecidableEq

/-- Is `b` a UTF-8 continuation byte (`10xxxxxx`)? -/
def isContByte (b : Byte) : Bool :=
  decide (0x80 ≤ b ∧ b ≤ 0xBF)

/-- Range check for the first continuation byte of a three-byte sequence
(excludes overlong encodings after `0xE0` and surrogates after `0xED`). -/
def valid3First (b b2 : Byte) : Bool :=
  if b = 0xE0 then decide (0xA0 ≤ b2 ∧ b2 ≤ 0xBF)
  else if b = 0xED then decide (0x80 ≤ b2 ∧ b2 ≤ 0x9F)
  else isContByte b2

/-- Range check for the first continuation byte of a four-byte sequence
(excludes overlong encodings after `0xF0` and planes above U+10FFFF after
`0xF4`). -/
def valid4First (b b2 : Byte) : Bool :=
  if b = 0xF0 then decide (0x90 ≤ b2 ∧ b2 ≤ 0xBF)
  else if b = 0xF4 then decide (0x80 ≤ b2 ∧ b2 ≤ 0x8F)
  else isContByte b2

/-- What the decoder does at a malformed sequence: `strict` raises,
`ignore` resumes at `rest` (the maximal subpart is dropped), `replace`
emits U+FFFD and resumes at `rest`. -/
def onDecodeFailure (mode : ErrMode)
    (resume : Except UnicodeDecodeError (List Char)) :
    Except UnicodeDecodeError (List Char) :=
  match mode with
  | .strict => .error .mk
  | .ignore => resume
  | .replace => resume.map (fun cs => Char.ofNat 0xFFFD :: cs)

/-- Decode one scalar from the front of a byte sequence: `b` is the head
byte, `bs` the remaining bytes.  Returns `(some c, rest)` after a
well-formed sequence, and `(none, rest)` at a malformed or truncated one,
where `rest` is the input with the maximal subpart of the bad sequence
removed. -/
def utf8Step (b : Byte) (bs : List Byte) : Option Char × List Byte :=
  if b ≤ 0x7F then
    (some (Char.ofNat b), bs)
  else if 0xC2 ≤ b ∧ b ≤ 0xDF then
    match bs with
    | [] => (none, [])
    | b2 :: bs2 =>
      if isContByte b2 then
        (some (Char.ofNat ((b - 0xC0) * 0x40 + (b2 - 0x80))), bs2)
      else
        (none, b2 :: bs2)
  else if 0xE0 ≤ b ∧ b ≤ 0xEF then
    match bs with
    | [] => (none, [])
    | b2 :: bs2 =>
      if valid3First b b2 then
        match bs2 with
        | [] => (none, [])
        | b3 :: bs3 =>
          if isContByte b3 then
            (some (Char.ofNat (((b - 0xE0) * 0x40 + (b2 - 0x80)) * 0x40 + (b3 - 0x80))), bs3)
          else
            (none, b3 :: bs3)
      else
        (none, b2 :: bs2)
  else if 0xF0 ≤ b ∧ b ≤ 0xF4 then
    match bs with
    | [] => (none, [])
    | b2 :: bs2 =>
      if valid4First b b2 then
        match bs2 with
        | [] => (none, [])
        | b3 :: bs3 =>
          if isContByte b3 then
            match bs3 with
            | [] => (none, [])
            | b4 :: bs4 =>
              if isContByte b4 then
                (some (Char.ofNat
                  ((((b - 0xF0) * 0x40 + (b2 - 0x80)) * 0x40 + (b3 - 0x80)) * 0x40
                    + (b4 - 0x80))), bs4)
              else
                (none, b4 :: bs4)
          else
            (none, b3 :: bs3)
      else
        (none, b2 :: bs2)
  else
    (none, bs)

theorem utf8Step_rest_length (b : Byte) (bs : List Byte) :
    (utf8Step b bs).2.length ≤ bs.length := by
  unfold utf8Step
  repeat' split
  all_goals simp_all
  all_goals omega

theorem utf8Step_rest_length_of_eq {b : Byte} {bs rest : List Byte} {o : Option Char}
    (h : utf8Step b bs = (o, rest)) : rest.length ≤ bs.length := by
  have hl := utf8Step_rest_length b bs
  rw [h] at hl
  exact hl

/-- Model of CPython's UTF-8 decoder `bytes.decode("utf-8", errors=mode)`:
decode scalar by scalar, and at each malformed or truncated sequence
raise (strict), skip its maximal subpart (ignore), or substitute U+FFFD
(replace). -/
def decodeUtf8 (mode : ErrMode) : List Byte → Except UnicodeDecodeError (List Char)
  | [] => .ok []
  | b :: bs =>
    match h : utf8Step b bs with
    | (some c, rest) => (decodeUtf8 mode rest).map (fun cs => c :: cs)
    | (none, rest) => onDecodeFailure mode (decodeUtf8 mode rest)
termination_by bs => bs.length
decreasing_by
  all_goals
    have hlen := utf8Step_rest_length_of_eq h
    simp only [List.length_cons]
    omega

theorem decodeUtf8_nil (mode : ErrMode) : decodeUtf8 mode [] = Except.ok [] := by
  simp [decodeUtf8]

theorem decodeUtf8_cons_some {b : Byte} {bs rest : List Byte} {c : Char} (mode : ErrMode)
    (h : utf8Step b bs = (some c, rest)) :
    decodeUtf8 mode (b :: bs) = (decodeUtf8 mode rest).map (fun cs => c :: cs) := by
  simp only [decodeUtf8]
  split <;> rename_i h2
  · rw [h] at h2
    simp only [Prod.mk.injEq, Option.some.injEq] at h2
    obtain ⟨rfl, rfl⟩ := h2
    rfl
  · rw [h] at h2
    simp at h2

theorem decodeUtf8_cons_none {b : Byte} {bs rest : List Byte} (mode : ErrMode)
    (h : utf8Step b bs = (none, rest)) :
    decodeUtf8 mode (b :: bs) = onDecodeFailure mode (decodeUtf8 mode rest) := by
  simp only [decodeUtf8]
  split <;> rename_i h2
  · rw [h] at h2
    simp at h2
  · rw [h] at h2
    simp only [Prod.mk.injEq] at h2
    rw [h2.2]

/-- Ignore-mode UTF-8 decoding never fails: every branch of the decoder
either succeeds outright or resumes after the malformed bytes. -/
theorem decodeUtf8_ignore_ok (bs : List Byte) :
    ∃ cs, decodeUtf8 ErrMode.ignore bs = Except.ok cs := by
  induction bs using decodeUtf8.induct ErrMode.ignore with
  | case1 => exact ⟨[], decodeUtf8_nil ErrMode.ignore⟩
  | case2 b bs c rest h ih =>
    obtain ⟨cs, hcs⟩ := ih
    exact ⟨c :: cs, by rw [decodeUtf8_cons_some ErrMode.ignore h, hcs]; rfl⟩
  | case3 b bs rest h ih =>
    obtain ⟨cs, hcs⟩ := ih
    exact ⟨cs, by rw [decodeUtf8_cons_none ErrMode.ignore h, hcs]; rfl⟩

/-! ## Data model of the relay (from `src/app.py`) -/

/-- An inbound request as Flask presents it to `proxy`: method, the
captured path suffix after `/_matrix/client/v3/`, the full request URL
(`request.url`, used only for logging), the query parameters
(`request.args`) as ordered key/value pairs, the headers as the client
spelled them (an ordered multi-map), and the raw body bytes
(`request.get_data()`). -/
structure InboundRequest where
  method : String
  path : String
  url : String
  query : List (String × String)
  headers : HeaderList
  body : List Byte
deriving DecidableEq

/-- The outbound request handed to `requests.request(...)` in `app.py`,
field for field: `method=`, `url=`, `headers=`, `data=`, `params=`,
`timeout=`. -/
structure OutboundRequest where
  method : String
  url : String
  headers : HeaderList
  body : List Byte
  query : List (String × String)
  timeout : Nat
deriving DecidableEq

/-- A transport-level failure of the upstream call: the exceptions
`requests.request` can raise (`ConnectionError`, `Timeout`, `SSLError`). -/
inductive TransportError
  | connectError
  | timeoutError
  | sslError
deriving DecidableEq

/-- The upstream response as `requests` presents it: `status_code`,
`headers` (modelled as the pair list its `items()` iteration yields), and
`content` (the body bytes after the client library's automatic
content-decoding, e.g. gzip). -/
structure UpstreamResponse where
  status : Nat
  headers : HeaderList
  content : List Byte
deriving DecidableEq

/-- The `Response(...)` value returned to the original caller. -/
structure RelayedResponse where
  status : Nat
  headers : HeaderList
  body : List Byte
deriving DecidableEq

/-- The configured upstream base URL (`MATRIX_BASE` in `app.py`). -/
def MATRIX_BASE : String :=
  "https://disaccord.cc"

/-- Line 10 of `app.py`: the f-string
`f"{MATRIX_BASE}/_matrix/client/v3/{path}"`, parametrized by the base so
the configuration dependency is explicit. -/
def upstreamUrlOf (base path : String) : String :=
  base ++ "/_matrix/client/v3/" ++ path

/-- One step of Werkzeug's WSGI environ construction for headers
(`serving.py`, `make_environ`): the environ is a dict keyed by the
upper-cased, underscore-joined header name, and a repeated key
comma-joins the new value onto the stored one.  Two hyphenated ASCII
names produce the same environ key exactly when they are equal
case-insensitively, i.e. when their title-cased forms coincide, so the
model keys the accumulator directly by the title-cased name under which
`EnvironHeaders` will present the entry. -/
def environInsert (d : HeaderList) (k v : String) : HeaderList :=
  if d.any (fun p => p.1 = normalizeHeaderName k) then
    d.map (fun p => if p.1 = normalizeHeaderName k then (p.1, p.2 ++ "," ++ v) else p)
  else
    d ++ [(normalizeHeaderName k, v)]

/-- The headers of `request.headers` as the handler iterates them: the
WSGI layer folds the client-spelled pairs into the environ, comma-joining
repeated names — which therefore reach the handler as one entry, never as
two — and `EnvironHeaders` presents each entry under its title-cased
name.  In particular the keys are pairwise distinct, so the `dict(...)`
on line 25 neither drops nor reorders anything. -/
def environHeaders (hs : HeaderList) : HeaderList :=
  hs.foldl (fun d p => environInsert d p.1 p.2) []

/-- Lines 25-31 of `app.py`: `headers = dict(request.headers)` followed by
`headers.pop("Host", None)` and `headers.pop("Content-Length", None)`. -/
def outboundHeaders (hs : HeaderList) : HeaderList :=
  dictPop (dictPop (dictOfList (environHeaders hs)) "Host") "Content-Length"

/-- Lines 37-44 of `app.py`: the outbound request built from the inbound
one — same method, rewritten URL, filtered headers, same body bytes, same
query parameters, a 30 unit timeout. -/
def buildOutboundWith (base : String) (req : InboundRequest) : OutboundRequest :=
  { method := req.method
    url := upstreamUrlOf base req.path
    headers := outboundHeaders req.headers
    body := req.body
    query := req.query
    timeout := 30 }

/-- The outbound request under the configured `MATRIX_BASE`. -/
def buildOutbound (req : InboundRequest) : OutboundRequest :=
  buildOutboundWith MATRIX_BASE req

/-- Line 57 of `app.py`: `excluded_headers`. -/
def excludedHeaders : List String :=
  ["content-encoding", "content-length", "transfer-encoding", "connection"]

/-- Lines 58-60 of `app.py`: keep the upstream header pairs whose
lower-cased name is not excluded, then convert the pair list to a dict. -/
def responseHeaders (hs : HeaderList) : HeaderList :=
  dictOfList (hs.filter (fun p => !(excludedHeaders.contains (pyLower p.1))))

/-- Line 60 of `app.py`: `Response(resp.content, status=resp.status_code,
headers=dict(response_headers))`. -/
def relayResponse (resp : UpstreamResponse) : RelayedResponse :=
  { status := resp.status
    headers := responseHeaders resp.headers
    body := resp.content }

/-! ## Logging (the two print blocks) -/

/-- The text printed for the inbound body on line 21:
`body.decode("utf-8", errors="ignore")`, prefixed by `print`'s label.  The
`.error` branch is unreachable — ignore-mode decoding always succeeds
(proved below) — but the model stays total without assuming that. -/
def bodyLogLine (b : List Byte) : String :=
  match decodeUtf8 .ignore b with
  | .ok cs => "Body: " ++ String.mk cs
  | .error _ => "Body: "

/-- One indented `name: value` line per header pair (lines 18-19, 50-51). -/
def headerLogLines (hs : HeaderList) : List String :=
  hs.map (fun p => "  " ++ p.1 ++ ": " ++ p.2)

/-- Lines 13-22 of `app.py`: the inbound log block. -/
def inboundLogLines (base : String) (req : InboundRequest) : List String :=
  ["=== Incoming from Discourse ==="]
    ++ ["Method: " ++ req.method]
    ++ ["URL: " ++ req.url]
    ++ ["Upstream URL: " ++ upstreamUrlOf base req.path]
    ++ ["Headers:"]
    ++ headerLogLines (environHeaders req.headers)
    ++ [bodyLogLine req.body]
    ++ ["==============================="]

/-- The body preview on line 52, `resp.text[:1000]`: the response body
decoded as text (modelled as UTF-8 with U+FFFD replacement, which is how
`requests` decodes the JSON payloads this proxy carries) truncated to
1000 characters. -/
def bodyPreview (b : List Byte) : String :=
  match decodeUtf8 .replace b with
  | .ok cs => String.mk (cs.take 1000)
  | .error _ => ""

/-- Lines 47-53 of `app.py`: the response log block. -/
def responseLogLines (resp : UpstreamResponse) : List String :=
  ["=== Response from Matrix ==="]
    ++ ["Status: " ++ toString resp.status]
    ++ ["Headers:"]
    ++ headerLogLines resp.headers
    ++ ["Body: " ++ bodyPreview resp.content]
    ++ ["============================"]

/-! ## The handler -/

/-- The state the Relay can see across requests.  The module holds a
single constant, `MATRIX_BASE`; nothing else outlives a request (the log
is an output stream, modelled as a returned value). -/
structure ServerState where
  matrixBase : String
deriving DecidableEq

/-- The state at process start. -/
def initialState : ServerState :=
  { matrixBase := MATRIX_BASE }

/-- Everything one invocation of `proxy` produces: the printed log lines,
the outbound request it issued, the outcome (the relayed response, or the
propagated transport failure — the handler has no try/except), and the
server state afterwards. -/
structure HandleResult where
  log : List String
  outbound : OutboundRequest
  result : Except TransportError RelayedResponse
  finalState : ServerState

/-- The whole of `proxy` (lines 9-60 of `app.py`) as a function of the
server state, the inbound request, and the upstream's answer to the
outbound call.  A transport error propagates out unchanged: the code
wraps the `requests.request` call in no try/except, so the exception
leaves the handler and the response log block never prints. -/
def handle (st : ServerState) (req : InboundRequest)
    (upstream : Except TransportError UpstreamResponse) : HandleResult :=
  { log := inboundLogLines st.matrixBase req
      ++ (match upstream with
          | .ok resp => responseLogLines resp
          | .error _ => [])
    outbound := buildOutboundWith st.matrixBase req
    result := match upstream with
      | .ok resp => .ok (relayResponse resp)
      | .error e => .error e
    finalState := st }

/-- The outcome of `proxy` under the configured base URL. -/
def proxyResult (req : InboundRequest)
    (upstream : Except TransportError UpstreamResponse) :
    Except TransportError RelayedResponse :=
  (handle initialState req upstream).result

/-! ## Helper lemmas about the WSGI header fold and the outbound pipeline -/

/-- The scenario request of the spec: a `POST` to
`rooms/!abc:example.org/send/m.room.message/1` carrying an
`Authorization` header and the JSON body bytes for the message `hi`
(13 bytes, `0x7B ... 0x7D`). -/
def sampleRequest : InboundRequest :=
  { method := "POST"
    path := "rooms/!abc:example.org/send/m.room.message/1"
    url := "http://localhost:5006/_matrix/client/v3/rooms/!abc:example.org/send/m.room.message/1"
    query := [("ts", "123")]
    headers := [("Authorization", "Bearer tok123"), ("Host", "localhost:5006"),
      ("Content-Length", "13")]
    body := [0x7B, 0x22, 0x62, 0x6F, 0x64, 0x79, 0x22, 0x3A, 0x22, 0x68, 0x69, 0x22, 0x7D] }

/-- A sample upstream response: a 404 with a gzip content-encoding header
and the body bytes of `hi`. -/
def sampleUpstream : UpstreamResponse :=
  { status := 404
    headers := [("Content-Type", "application/json"), ("Content-Encoding", "gzip")]
    content := [0x68, 0x69] }


/-! ## Claim theorems -/

/-- C1, counterexample: the claim says a transport-level failure of the
upstream call is caught at the Relay boundary and converted into a
well-formed HTTP error response.  It is not: `proxy` wraps the upstream
call in no try/except, so on a connection failure the handler's outcome
is the propagated exception itself, not a response. -/
theorem c1_counterexample :
    proxyResult sampleRequest (Except.error TransportError.connectError)
      = Except.error TransportError.connectError :=
  rfl

/-- C1, amended: a transport-level failure of the upstream call (connection
error, timeout, TLS failure) propagates out of the handler unchanged —
the handler returns no HTTP error response itself; converting the escaped
exception into a response is left to the hosting framework. -/
theorem c1_transport_error_propagates (st : ServerState) (req : InboundRequest)
    (e : TransportError) :
    (handle st req (Except.error e)).result = Except.error e :=
  rfl

/-- C4: whatever case the upstream used, the relayed response's header set
contains no content-encoding, content-length, transfer-encoding or
connection header; and exactly those four are removed — every other
upstream header name still has an entry in the relayed set. -/
theorem c4_response_header_filtering (resp : UpstreamResponse) :
    (∀ p ∈ (relayResponse resp).headers,
        pyLower p.1 ≠ "content-encoding" ∧ pyLower p.1 ≠ "content-length"
        ∧ pyLower p.1 ≠ "transfer-encoding" ∧ pyLower p.1 ≠ "connection")
    ∧ (∀ q ∈ resp.headers,
        pyLower q.1 ≠ "content-encoding" → pyLower q.1 ≠ "content-length" →
        pyLower q.1 ≠ "transfer-encoding" → pyLower q.1 ≠ "connection" →
        ∃ v, (q.1, v) ∈ (relayResponse resp).headers) := by
  constructor
  · intro p hp
    have h1 := mem_dictOfList hp
    rw [List.mem_filter] at h1
    obtain ⟨_, h2⟩ := h1
    simp [excludedHeaders] at h2
    exact ⟨h2.1, h2.2.1, h2.2.2.1, h2.2.2.2⟩
  · intro q hq h1 h2 h3 h4
    have hfil : q ∈ resp.headers.filter
        (fun p => !(excludedHeaders.contains (pyLower p.1))) := by
      rw [List.mem_filter]
      refine ⟨hq, ?_⟩
      simp [excludedHeaders, h1, h2, h3, h4]
    have hkey : q.1 ∈ headerKeys (resp.headers.filter
        (fun p => !(excludedHeaders.contains (pyLower p.1)))) := by
      rw [mem_headerKeys]
      exact ⟨q.2, by rw [Prod.mk.eta]; exact hfil⟩
    have hkey2 := key_mem_dictOfList hkey
    rw [mem_headerKeys] at hkey2
    exact hkey2

/-- C4, witness: the gzip content-encoding header of the sample upstream
response is dropped while its content-type header keeps an entry. -/
theorem c4_witness :
    ∃ v, ("Content-Type", v) ∈ (relayResponse sampleUpstream).headers :=
  (c4_response_header_filtering sampleUpstream).2 ("Content-Type", "application/json")
    (by decide) (by decide) (by decide) (by decide) (by decide)

/-- C5: for every supported method, the upstream URL is exactly the
configured base followed by `/_matrix/client/v3/` and the captured path
suffix, and the outbound query parameters (and method) equal the inbound
ones. -/
theorem c5_upstream_url_and_query (req : InboundRequest)
    (hm : req.method ∈ (["GET", "PUT", "POST"] : List String)) :
    (buildOutbound req).url = MATRIX_BASE ++ "/_matrix/client/v3/" ++ req.path
    ∧ (buildOutbound req).query = req.query
    ∧ (buildOutbound req).method = req.method :=
  ⟨rfl, rfl, rfl⟩

/-- C5, witness at the sample request. -/
theorem c5_witness :
    sampleRequest.method ∈ (["GET", "PUT", "POST"] : List String)
    ∧ (buildOutbound sampleRequest).url
        = "https://disaccord.cc/_matrix/client/v3/rooms/!abc:example.org/send/m.room.message/1"
    ∧ (buildOutbound sampleRequest).query = sampleRequest.query := by
  refine ⟨by decide, ?_, (c5_upstream_url_and_query sampleRequest (by decide)).2.1⟩
  rw [(c5_upstream_url_and_query sampleRequest (by decide)).1]
  decide

/-- C6: the upstream receives exactly the inbound body bytes, byte for
byte, for any byte content (valid UTF-8 or not, empty or not). -/
theorem c6_body_byte_identity (st : ServerState) (req : InboundRequest)
    (u : Except TransportError UpstreamResponse) :
    (handle st req u).outbound.body = req.body :=
  rfl

/-- C7: for any upstream status in [100, 599] the relayed response carries
exactly that status, and the upstream body verbatim. -/
theorem c7_status_passthrough (resp : UpstreamResponse)
    (h1 : 100 ≤ resp.status) (h2 : resp.status ≤ 599) :
    (relayResponse resp).status = resp.status
    ∧ (relayResponse resp).body = resp.content :=
  ⟨rfl, rfl⟩

/-- C7, witness: the sample 404 passes through as a 404 with its body. -/
theorem c7_witness :
    100 ≤ sampleUpstream.status ∧ sampleUpstream.status ≤ 599
    ∧ (relayResponse sampleUpstream).status = 404
    ∧ (relayResponse sampleUpstream).body = [0x68, 0x69] := by
  refine ⟨by decide, by decide, ?_, ?_⟩
  · rw [(c7_status_passthrough sampleUpstream (by decide) (by decide)).1]
    decide
  · rw [(c7_status_passthrough sampleUpstream (by decide) (by decide)).2]
    decide

theorem c8_decode_ff : decodeUtf8 ErrMode.ignore [0xFF] = Except.ok [] := by
  rw [decodeUtf8_cons_none ErrMode.ignore (show utf8Step 0xFF [] = (none, []) from rfl)]
  rw [decodeUtf8_nil]
  rfl

/-- C8, counterexample: the claim says undecodable body bytes are replaced
with a placeholder in the log output.  They are not: the code decodes
with `errors="ignore"`, which drops the bad bytes, so the log line for
the body `0xFF` is just the bare label with no placeholder character. -/
theorem c8_counterexample :
    bodyLogLine [0xFF] = "Body: "
    ∧ Char.ofNat 0xFFFD ∉ "Body: ".data := by
  constructor
  · unfold bodyLogLine
    rw [c8_decode_ff]
    decide
  · decide

/-- C8, amended: logging an arbitrary body never raises — ignore-mode
decoding always succeeds and the log line is built from its output, with
undecodable bytes dropped rather than replaced — and the bytes forwarded
upstream are the inbound bytes regardless of the decode. -/
theorem c8_logging_never_raises (st : ServerState) (req : InboundRequest)
    (u : Except TransportError UpstreamResponse) :
    (∃ cs, decodeUtf8 ErrMode.ignore req.body = Except.ok cs
        ∧ bodyLogLine req.body = "Body: " ++ String.mk cs)
    ∧ (handle st req u).outbound.body = req.body := by
  constructor
  · obtain ⟨cs, hcs⟩ := decodeUtf8_ignore_ok req.body
    refine ⟨cs, hcs, ?_⟩
    unfold bodyLogLine
    rw [hcs]
  · rfl

/-- C9: the handler reads but never writes the state visible across
requests, and two invocations with identical inputs (same configuration,
same inbound request, same upstream answer) produce identical results —
log, outbound request, outcome and final state. -/
theorem c9_stateless_deterministic (st st2 : ServerState) (req req2 : InboundRequest)
    (u u2 : Except TransportError UpstreamResponse)
    (hst : st2 = st) (hreq : req2 = req) (hu : u2 = u) :
    (handle st req u).finalState = st
    ∧ handle st2 req2 u2 = handle st req u := by
  subst hst hreq hu
  exact ⟨rfl, rfl⟩

/-- C9, witness at concrete inputs. -/
theorem c9_witness :
    (handle initialState sampleRequest
        (Except.error TransportError.timeoutError)).finalState = initialState :=
  (c9_stateless_deterministic initialState initialState sampleRequest sampleRequest
    (Except.error TransportError.timeoutError) (Except.error TransportError.timeoutError)
    rfl rfl rfl).1

/-- C10: every header name appears at most once in the relayed response's
header set — the final dict conversion collapses any repeated upstream
header names to a single entry. -/
theorem c10_relayed_header_names_unique (resp : UpstreamResponse) :
    (headerKeys (relayResponse resp).headers).Nodup :=
  nodup_headerKeys_dictOfList _
